import Mathlib

/-!
Shallow embedding of the kqueue-based filesystem-watch backend
(`src/watchdog/observers/kqueue.py`) together with the small parts of
`watchdog.utils` it relies on.  Pure helpers become Lean functions; the
stateful emitter and its descriptor registry become explicit state passing.
Python exceptions are modelled with an explicit result type, and a call that
re-acquires the registry's non-reentrant lock from the same thread is
modelled as a distinguished `deadlock` outcome, since such a call never
returns.

The embedding follows the source line by line; doc comments cite the line
numbers of the embedded code.
-/

/-! ## Native flag constants

Values of the `select.KQ_NOTE_*` constants on BSD and Darwin, combined in
`WATCHDOG_KQ_FFLAGS` (kqueue.py lines 99-106). -/

def KQ_NOTE_DELETE : Nat := 0x1

def KQ_NOTE_WRITE : Nat := 0x2

def KQ_NOTE_EXTEND : Nat := 0x4

def KQ_NOTE_ATTRIB : Nat := 0x8

def KQ_NOTE_LINK : Nat := 0x10

def KQ_NOTE_RENAME : Nat := 0x20

def KQ_NOTE_REVOKE : Nat := 0x40

/-- errno value for a missing path (`errno.ENOENT`). -/
def ENOENT : Nat := 2

/-- A raw kqueue event as delivered by `kqueue.control`: `ident` is the file
descriptor the event fired for, `fflags` the fired note-flag bits. -/
structure Kev where
  ident : Nat
  fflags : Nat
deriving DecidableEq

/-- kqueue.py lines 110-112: `kev.fflags & KQ_NOTE_DELETE` (truthiness of the
masked bits). -/
def is_deleted (kev : Kev) : Bool :=
  kev.fflags &&& KQ_NOTE_DELETE != 0

/-- kqueue.py lines 114-117: `(fflags & KQ_NOTE_EXTEND) or (fflags & KQ_NOTE_WRITE)`. -/
def is_modified (kev : Kev) : Bool :=
  (kev.fflags &&& KQ_NOTE_EXTEND != 0) || (kev.fflags &&& KQ_NOTE_WRITE != 0)

/-- kqueue.py lines 119-121: `kev.fflags & KQ_NOTE_ATTRIB`. -/
def is_attrib_modified (kev : Kev) : Bool :=
  kev.fflags &&& KQ_NOTE_ATTRIB != 0

/-- kqueue.py lines 123-125: `kev.fflags & KQ_NOTE_RENAME`. -/
def is_renamed (kev : Kev) : Bool :=
  kev.fflags &&& KQ_NOTE_RENAME != 0

/-- The classification a raw kevent receives in the dispatch chain of
`_queue_events_except_renames_and_dir_modifications` (kqueue.py lines
421-443): the `if`/`elif` chain tests `is_deleted`, then
`is_attrib_modified`, then `is_modified`, then `is_renamed`; a kevent
matching none of the four flags falls through the chain untouched. -/
inductive KevClass where
  | deleted
  | attribModified
  | modified
  | renamed
  | ignored
deriving DecidableEq

/-- The `if`/`elif` dispatch chain of kqueue.py lines 421-443 as a
classification function. -/
def classify (kev : Kev) : KevClass :=
  if is_deleted kev then .deleted
  else if is_attrib_modified kev then .attribModified
  else if is_modified kev then .modified
  else if is_renamed kev then .renamed
  else .ignored

/-! ## Canonical events -/

/-- The canonical event classes the source imports and constructs
(kqueue.py lines 60-70): Created, Deleted, Modified and Moved events, each
in a file and a directory flavour.  The source defines and imports no
attribute-modified event class; `EventType.attributeModified` below exists
only so that the specification's richer taxonomy can be stated. -/
inductive Event where
  | created (is_directory : Bool) (src_path : String)
  | deleted (is_directory : Bool) (src_path : String)
  | modified (is_directory : Bool) (src_path : String)
  | moved (is_directory : Bool) (src_path : String) (dest_path : String)
deriving DecidableEq

/-- The specification's event-type taxonomy, including the
`attributeModified` variant that the code's event classes do not provide. -/
inductive EventType where
  | created
  | deleted
  | modified
  | attributeModified
  | moved
deriving DecidableEq

/-- The `event_type` attribute of a queued event. -/
def Event.event_type : Event → EventType
  | .created _ _ => .created
  | .deleted _ _ => .deleted
  | .modified _ _ => .modified
  | .moved _ _ _ => .moved

def Event.src_path : Event → String
  | .created _ p => p
  | .deleted _ p => p
  | .modified _ p => p
  | .moved _ p _ => p

def Event.is_directory : Event → Bool
  | .created b _ => b
  | .deleted b _ => b
  | .modified b _ => b
  | .moved b _ _ => b

def FileCreatedEvent (path : String) : Event := .created false path

def DirCreatedEvent (path : String) : Event := .created true path

def FileDeletedEvent (path : String) : Event := .deleted false path

def DirDeletedEvent (path : String) : Event := .deleted true path

def FileModifiedEvent (path : String) : Event := .modified false path

def DirModifiedEvent (path : String) : Event := .modified true path

def FileMovedEvent (src dest : String) : Event := .moved false src dest

def DirMovedEvent (src dest : String) : Event := .moved true src dest

/-! ## Python-level outcomes -/

/-- The Python exceptions the embedded code can raise. -/
inductive PyExn where
  | keyError
  | nameError
  | valueError
  | osError (errno : Nat)
deriving DecidableEq

/-- Result of a call into the embedded code: a normal return, a raised
exception, or a call that never returns because it blocks acquiring a
non-reentrant lock the same thread already holds. -/
inductive PyResult (α : Type) where
  | ok : α → PyResult α
  | exn : PyExn → PyResult α
  | deadlock : PyResult α
deriving DecidableEq

def PyResult.bind : PyResult α → (α → PyResult β) → PyResult β
  | .ok a, f => f a
  | .exn e, _ => .exn e
  | .deadlock, _ => .deadlock

/-! ## Collaborators outside kqueue.py -/

/-- Modelled from the spec: `watchdog.utils.absolute_path` is not among the
provided sources; the spec (section 6) treats it as a pure canonicalisation
`path -> canonical absolute path` applied before every map lookup and
insert.  It is modelled as the identity on already-canonical paths. -/
def absolute_path (path : String) : String := path

/-- Metadata record returned by a snapshot lookup; only the inode field is
consulted by kqueue.py. -/
structure StatInfo where
  st_ino : Nat
deriving DecidableEq

/-- Modelled from the spec: `watchdog.utils.dirsnapshot.DirectorySnapshot`
is not among the provided sources.  The spec (sections 3 and 4.1) defines a
snapshot as a path-to-metadata map together with the reverse inode-to-path
map, with `stat_info` and `path_for_inode` failing (KeyError, observed at
the call sites in kqueue.py lines 446-464) on absent keys.  The map is
embedded as an association list; the reverse lookup searches the entries. -/
structure DirectorySnapshot where
  entries : List (String × StatInfo)
deriving DecidableEq

/-- `stat_info(path)`: metadata for a path, `none` standing for the KeyError
raised on an untracked path. -/
def DirectorySnapshot.stat_info (s : DirectorySnapshot) (path : String) :
    Option StatInfo :=
  (s.entries.find? (fun e => e.1 == path)).map (fun e => e.2)

/-- `path_for_inode(inode)`: the path recorded for an inode, `none` standing
for the KeyError raised on an untracked inode. -/
def DirectorySnapshot.path_for_inode (s : DirectorySnapshot) (ino : Nat) :
    Option String :=
  (s.entries.find? (fun e => e.2.st_ino == ino)).map (fun e => e.1)

/-! ## File-rename resolution

kqueue.py lines 446-464, `KqueueEmitter._queue_file_renamed`.  The method's
observable output is the sequence of events it passes to `queue_event`; the
bookkeeping each such call performs is embedded separately below
(`KqueueEmitter.queue_event`).  On the KeyError branch for a vanished
temporary file the source writes `continue` where no loop encloses it; its
evident meaning, an early return after queuing the Created/Deleted pair, is
used here. -/

/-- Events queued by `_queue_file_renamed(src_path, ref_snapshot,
new_snapshot)`: a Created/Deleted pair when the prior snapshot has no record
of `src_path`; otherwise Moved to the path the new snapshot holds for the
prior inode, or Deleted alone when the new snapshot has no entry with that
inode. -/
def queue_file_renamed_events (src_path : String)
    (ref_snapshot new_snapshot : DirectorySnapshot) : List Event :=
  match ref_snapshot.stat_info src_path with
  | none => [FileCreatedEvent src_path, FileDeletedEvent src_path]
  | some ref_stat_info =>
    match new_snapshot.path_for_inode ref_stat_info.st_ino with
    | some dest_path => [FileMovedEvent src_path dest_path]
    | none => [FileDeletedEvent src_path]

/-! ## Kevent descriptors and their registry -/

/-- kqueue.py lines 269-338, `KeventDescriptor`: path, directory status and
the OS file descriptor returned by `os.open`; the kevent object it carries
is keyed by the same fd and is tracked through the fd in the registry's
`kevents` set below. -/
structure KeventDescriptor where
  path : String
  is_directory : Bool
  fd : Nat
deriving DecidableEq

/-- kqueue.py lines 328-329: descriptor identity is the `(path,
is_directory)` key; `__eq__` and `__hash__` ignore the fd. -/
def KeventDescriptor.key (d : KeventDescriptor) : String × Bool :=
  (d.path, d.is_directory)

/-- kqueue.py lines 285-293, `KeventDescriptor.__init__`.  After storing the
canonical path, line 287 executes `self._kev = kev`; no name `kev` is bound
there (not locally, not at module level), so the constructor raises
NameError before reaching the `os.open` call of line 289.  Construction
therefore fails identically for every path, without touching the
filesystem, which is why this embedding needs no filesystem parameter. -/
def KeventDescriptor.construct (path : String) (is_directory : Bool) :
    PyResult KeventDescriptor :=
  .exn .nameError

/-- kqueue.py lines 128-145, `KeventDescriptorSet` state: the descriptor
set, the path index, the fd index and the set of kevent objects (tracked
here by their fd).  The guarding `threading.Lock` is non-reentrant; it is
modelled by the `lockHeld` argument each locking method takes: a method
invoked while the lock is already held by the same thread deadlocks. -/
structure KeventDescriptorSet where
  descriptors : List KeventDescriptor
  descriptor_for_path : List (String × KeventDescriptor)
  descriptor_for_fd : List (Nat × KeventDescriptor)
  kevents : List Nat
deriving DecidableEq

/-- The freshly constructed, empty registry (kqueue.py lines 132-145). -/
def KeventDescriptorSet.empty : KeventDescriptorSet :=
  { descriptors := [], descriptor_for_path := [], descriptor_for_fd := [],
    kevents := [] }

/-- Lookup in the path index (a Python dict read). -/
def KeventDescriptorSet.pathLookup (s : KeventDescriptorSet) (path : String) :
    Option KeventDescriptor :=
  (s.descriptor_for_path.find? (fun p => p.1 == path)).map (fun p => p.2)

/-- Lookup in the fd index (a Python dict read). -/
def KeventDescriptorSet.fdLookup (s : KeventDescriptorSet) (fd : Nat) :
    Option KeventDescriptor :=
  (s.descriptor_for_fd.find? (fun p => p.1 == fd)).map (fun p => p.2)

/-- kqueue.py lines 238-241, `_has_path` (thread-unsafe helper). -/
def KeventDescriptorSet.has_path (s : KeventDescriptorSet) (path : String) :
    Bool :=
  (s.pathLookup path).isSome

/-- Python dict assignment `d[k] = v`: any previous binding of the key is
replaced. -/
def dictInsert (l : List (Nat × KeventDescriptor)) (k : Nat)
    (v : KeventDescriptor) : List (Nat × KeventDescriptor) :=
  (k, v) :: l.filter (fun p => p.1 != k)

/-- Python dict assignment for the path index. -/
def dictInsertPath (l : List (String × KeventDescriptor)) (k : String)
    (v : KeventDescriptor) : List (String × KeventDescriptor) :=
  (k, v) :: l.filter (fun p => p.1 != k)

/-- kqueue.py lines 243-253, `_add_descriptor` (thread-unsafe helper):
`set.add` on the descriptor set and kevent set, dict assignment on both
indices. -/
def KeventDescriptorSet.add_descriptor (s : KeventDescriptorSet)
    (d : KeventDescriptor) : KeventDescriptorSet :=
  { descriptors :=
      if s.descriptors.any (fun x => x.key == d.key) then s.descriptors
      else d :: s.descriptors,
    kevents := if s.kevents.contains d.fd then s.kevents else d.fd :: s.kevents,
    descriptor_for_path := dictInsertPath s.descriptor_for_path d.path d,
    descriptor_for_fd := dictInsert s.descriptor_for_fd d.fd d }

/-- kqueue.py lines 255-266, `_remove_descriptor` (thread-unsafe helper):
`set.remove` from the descriptor set, `del` on both indices, `set.remove`
of the kevent, then `descriptor.close()` — whose body (lines 319-326)
closes the OS fd and swallows any OSError, leaving the registry state
untouched. -/
def KeventDescriptorSet.remove_descriptor (s : KeventDescriptorSet)
    (d : KeventDescriptor) : KeventDescriptorSet :=
  { descriptors := s.descriptors.filter (fun x => x.key != d.key),
    descriptor_for_fd := s.descriptor_for_fd.filter (fun p => p.1 != d.fd),
    descriptor_for_path := s.descriptor_for_path.filter (fun p => p.1 != d.path),
    kevents := s.kevents.filter (fun fd => fd != d.fd) }

/-- kqueue.py lines 160-173, `get_for_fd`: under the lock, a plain dict read
of the fd index; an unknown fd raises KeyError. -/
def KeventDescriptorSet.get_for_fd (s : KeventDescriptorSet)
    (lockHeld : Bool) (fd : Nat) : PyResult KeventDescriptor :=
  if lockHeld then .deadlock
  else
    match s.fdLookup fd with
    | some d => .ok d
    | none => .exn .keyError

/-- kqueue.py lines 175-181, `__getitem__`: under the lock, canonicalise the
path and read the path index; an unknown path raises KeyError. -/
def KeventDescriptorSet.getitem (s : KeventDescriptorSet) (lockHeld : Bool)
    (path : String) : PyResult KeventDescriptor :=
  if lockHeld then .deadlock
  else
    match s.pathLookup (absolute_path path) with
    | some d => .ok d
    | none => .exn .keyError

/-- kqueue.py lines 192-209, `add`: under the lock, canonicalise the path;
if a descriptor for it is already registered, do nothing; otherwise
construct a `KeventDescriptor` (which raises, see
`KeventDescriptor.construct`) and insert it with `_add_descriptor`. -/
def KeventDescriptorSet.add (s : KeventDescriptorSet) (lockHeld : Bool)
    (path : String) (is_directory : Bool) : PyResult KeventDescriptorSet :=
  if lockHeld then .deadlock
  else
    let p := absolute_path path
    if s.has_path p then .ok s
    else
      match KeventDescriptor.construct p is_directory with
      | .ok d => .ok (s.add_descriptor d)
      | .exn e => .exn e
      | .deadlock => .deadlock

/-- kqueue.py lines 211-223, `remove`: under the lock, canonicalise the path
and, if a descriptor is registered for it, remove `self[path]`.  The
subscript `self[path]` on line 223 invokes `__getitem__`, which re-acquires
the same non-reentrant lock the method is still holding, so a remove of a
registered path never returns. -/
def KeventDescriptorSet.remove (s : KeventDescriptorSet) (lockHeld : Bool)
    (path : String) : PyResult KeventDescriptorSet :=
  if lockHeld then .deadlock
  else
    let p := absolute_path path
    if s.has_path p then
      match s.getitem true p with
      | .ok d => .ok (s.remove_descriptor d)
      | .exn e => .exn e
      | .deadlock => .deadlock
    else .ok s

/-! ## The kqueue emitter

kqueue.py lines 341-501.  The emitter's mutable state is its descriptor
registry, the saved snapshot and the downstream event queue (the
`EventEmitter.queue_event` append of line 397).  The emitter's own
`self._lock` is a `threading.RLock`, reentrant for the owning thread, so it
introduces no deadlock and is not modelled. -/

structure KqueueEmitter where
  descriptors : KeventDescriptorSet
  snapshot : DirectorySnapshot
  queue : List Event
deriving DecidableEq

/-- kqueue.py lines 386-397 restricted to non-moved events: a Deleted event
first unregisters its path (lines 395-396, `self._unregister`, i.e.
`KeventDescriptorSet.remove`), every event is then appended to the
downstream queue by `EventEmitter.queue_event` (line 397).  The moved
branch, which calls `_register`, lives in `KqueueEmitter.queue_event`
below; the split replaces the source's mutual recursion between
`queue_event` and `_register`, whose synthesized events are never Moved. -/
def KqueueEmitter.queue_event_aux (st : KqueueEmitter) (event : Event) :
    PyResult KqueueEmitter :=
  match event with
  | .deleted is_dir src =>
    match st.descriptors.remove false src with
    | .ok ds =>
      .ok { st with descriptors := ds,
                    queue := st.queue ++ [Event.deleted is_dir src] }
    | .exn e => .exn e
    | .deadlock => .deadlock
  | e => .ok { st with queue := st.queue ++ [e] }

/-- kqueue.py lines 361-380, `_register`: try `self._descriptors.add`; an
OSError with errno ENOENT (path vanished between snapshot and registration)
is absorbed by queuing a Created/Deleted pair for the canonical path; every
other exception propagates (the `except` clause catches OSError only). -/
def KqueueEmitter.register (st : KqueueEmitter) (path : String)
    (is_directory : Bool) : PyResult KqueueEmitter :=
  match st.descriptors.add false path is_directory with
  | .ok ds => .ok { st with descriptors := ds }
  | .exn (.osError e) =>
    if e = ENOENT then
      let p := absolute_path path
      (st.queue_event_aux (if is_directory then DirCreatedEvent p
                           else FileCreatedEvent p)).bind
        (fun st2 => st2.queue_event_aux (if is_directory then DirDeletedEvent p
                                         else FileDeletedEvent p))
    else .exn (.osError e)
  | .exn e => .exn e
  | .deadlock => .deadlock

/-- kqueue.py lines 386-397, `queue_event`: for a Moved event, unregister
the source path (line 393) and register the destination (line 394), then
append the event (line 397); for a Deleted event, unregister the source
path then append; every other event is appended directly. -/
def KqueueEmitter.queue_event (st : KqueueEmitter) (event : Event) :
    PyResult KqueueEmitter :=
  match event with
  | .moved is_dir src dest =>
    (st.descriptors.remove false src).bind (fun ds =>
      (KqueueEmitter.register { st with descriptors := ds } dest is_dir).bind
        (fun st2 => .ok { st2 with queue := st2.queue ++ [Event.moved is_dir src dest] }))
  | e => st.queue_event_aux e

/-- The deferred sets accumulated by the dispatch loop (kqueue.py lines
413-415): `files_renamed` is initialised and returned but never populated;
the two directory sets collect paths whose resolution is deferred to the
snapshot diff.  Python sets are embedded as lists in insertion order. -/
structure Deferred where
  files_renamed : List String
  dirs_renamed : List String
  dirs_modified : List String
deriving DecidableEq

def Deferred.empty : Deferred := { files_renamed := [], dirs_renamed := [],
                                   dirs_modified := [] }

/-- One pass of the dispatch loop body (kqueue.py lines 417-443): resolve
the kevent's descriptor by fd — an unknown fd lets `get_for_fd`'s KeyError
propagate, there is no handler — then dispatch on the flag chain
(`classify`).  Deleted and attribute-modified kevents queue a
Deleted/Modified event immediately; a content-modified or renamed directory
is deferred into the corresponding set; a content-modified file queues a
Modified event; a renamed file reaches line 443, which names
`ref_snapshot` and `new_snapshot` — neither is bound in this method or its
module — so that branch raises NameError. -/
def KqueueEmitter.processOne (st : KqueueEmitter) (acc : Deferred)
    (kev : Kev) : PyResult (KqueueEmitter × Deferred) :=
  match st.descriptors.get_for_fd false kev.ident with
  | .exn e => .exn e
  | .deadlock => .deadlock
  | .ok descriptor =>
    let src_path := descriptor.path
    match classify kev with
    | .deleted =>
      ((st.queue_event (if descriptor.is_directory then DirDeletedEvent src_path
                        else FileDeletedEvent src_path)).bind
        (fun st2 => .ok (st2, acc)))
    | .attribModified =>
      ((st.queue_event (if descriptor.is_directory then DirModifiedEvent src_path
                        else FileModifiedEvent src_path)).bind
        (fun st2 => .ok (st2, acc)))
    | .modified =>
      if descriptor.is_directory then
        .ok (st, { acc with dirs_modified := acc.dirs_modified ++ [src_path] })
      else
        ((st.queue_event (FileModifiedEvent src_path)).bind
          (fun st2 => .ok (st2, acc)))
    | .renamed =>
      if descriptor.is_directory then
        .ok (st, { acc with dirs_renamed := acc.dirs_renamed ++ [src_path] })
      else .exn .nameError
    | .ignored => .ok (st, acc)

/-- The dispatch loop over a batch (kqueue.py line 417, `for kev in
event_list`): an exception raised for one kevent propagates out of the
loop, abandoning the remaining kevents. -/
def KqueueEmitter.processBatch : KqueueEmitter → Deferred → List Kev →
    PyResult (KqueueEmitter × Deferred)
  | st, acc, [] => .ok (st, acc)
  | st, acc, kev :: rest =>
    match st.processOne acc kev with
    | .ok (st2, acc2) => st2.processBatch acc2 rest
    | .exn e => .exn e
    | .deadlock => .deadlock

/-- kqueue.py lines 412-444, `_queue_events_except_renames_and_dir_modifications`:
initialise the three deferred sets, run the dispatch loop, return the
triple. -/
def KqueueEmitter.queue_events_except_renames_and_dir_modifications
    (st : KqueueEmitter) (event_list : List Kev) :
    PyResult (KqueueEmitter × Deferred) :=
  st.processBatch Deferred.empty event_list

/-- kqueue.py lines 400-404, `_queue_from_dirs_renamed`: the body is `pass`;
the handler emits no events whatever its arguments. -/
def queue_from_dirs_renamed (dirs_renamed : List String)
    (ref_snapshot new_snapshot : DirectorySnapshot) : List Event := []

/-- kqueue.py lines 406-410, `_queue_from_dirs_modified`: the body is
`pass`; the handler emits no events whatever its arguments. -/
def queue_from_dirs_modified (dirs_modified : List String)
    (ref_snapshot new_snapshot : DirectorySnapshot) : List Event := []

/-- One iteration of `queue_events` (kqueue.py lines 470-496).  After the
dispatch loop returns its 3-tuple, line 475 unpacks it into the two names
`dirs_renamed, dir_modified`, raising ValueError; the `except` clause of
line 491 then evaluates the unbound name `OSerror` while matching, so every
exception leaving the `try` block — the ValueError, or any exception
raised by the dispatch loop itself — surfaces as NameError.  No statement
after line 475 (snapshot capture, snapshot adoption, the deferred-set
check of line 484, the resync handler calls) is ever reached. -/
def KqueueEmitter.queue_events_iteration (st : KqueueEmitter)
    (event_list : List Kev) : PyResult KqueueEmitter :=
  match st.queue_events_except_renames_and_dir_modifications event_list with
  | .deadlock => .deadlock
  | _ => .exn .nameError

/-! ## Shared concrete fixtures -/

/-- A registered file descriptor for `/w/a.txt` with fd 3. -/
def descA : KeventDescriptor := { path := "/w/a.txt", is_directory := false, fd := 3 }

/-- A registry holding exactly the descriptor for `/w/a.txt`. -/
def setRegA : KeventDescriptorSet :=
  { descriptors := [descA], descriptor_for_path := [("/w/a.txt", descA)],
    descriptor_for_fd := [(3, descA)], kevents := [3] }

/-- An emitter whose registry tracks `/w/a.txt` and whose queue is empty. -/
def emitterRegA : KqueueEmitter :=
  { descriptors := setRegA,
    snapshot := { entries := [("/w/a.txt", { st_ino := 5 })] }, queue := [] }

/-- A registered directory descriptor for `/w/dir` with fd 7. -/
def descDir : KeventDescriptor := { path := "/w/dir", is_directory := true, fd := 7 }

/-- A registry holding exactly the descriptor for `/w/dir`. -/
def setRegDir : KeventDescriptorSet :=
  { descriptors := [descDir], descriptor_for_path := [("/w/dir", descDir)],
    descriptor_for_fd := [(7, descDir)], kevents := [7] }

/-- An emitter whose registry tracks the directory `/w/dir`. -/
def emitterRegDir : KqueueEmitter :=
  { descriptors := setRegDir,
    snapshot := { entries := [("/w/dir", { st_ino := 1 })] }, queue := [] }

/-- An emitter with an empty registry. -/
def emitterEmpty : KqueueEmitter :=
  { descriptors := KeventDescriptorSet.empty, snapshot := { entries := [] },
    queue := [] }

/-- The registry invariant named by the spec: at most one descriptor is
registered per path, i.e. the keys of the path index are pairwise
distinct. -/
def KeventDescriptorSet.UniquePaths (s : KeventDescriptorSet) : Prop :=
  (s.descriptor_for_path.map Prod.fst).Nodup

/-! ## C1 -/

/-- C1 (counterexample): resolving suspect path `/w/a.txt` whose prior inode
5 is absent from the new snapshot while an unrelated entry (inode 9) now
occupies the same path slot emits only a Deleted event; the Created event
the claim additionally requires is never emitted. -/
theorem queue_file_renamed_no_created_on_reoccupied_slot :
    queue_file_renamed_events "/w/a.txt"
        { entries := [("/w/a.txt", { st_ino := 5 })] }
        { entries := [("/w/a.txt", { st_ino := 9 })] }
      = [FileDeletedEvent "/w/a.txt"] ∧
    FileCreatedEvent "/w/a.txt" ∉
      queue_file_renamed_events "/w/a.txt"
        { entries := [("/w/a.txt", { st_ino := 5 })] }
        { entries := [("/w/a.txt", { st_ino := 9 })] } := by
  decide

/-- C1 (amended): for a suspect file path recorded in the prior snapshot, if
the prior inode exists in the new snapshot, exactly one Moved(old, new)
event is emitted; if the inode is absent from the new snapshot, exactly one
Deleted event for the old path is emitted, and no Created event is emitted
regardless of whether the old path slot is reoccupied. -/
theorem queue_file_renamed_moved_or_deleted_only
    (ref new : DirectorySnapshot) (src_path dest : String) (si : StatInfo)
    (h : ref.stat_info src_path = some si) :
    (new.path_for_inode si.st_ino = some dest →
      queue_file_renamed_events src_path ref new = [FileMovedEvent src_path dest]) ∧
    (new.path_for_inode si.st_ino = none →
      queue_file_renamed_events src_path ref new = [FileDeletedEvent src_path]) := by
  constructor
  · intro h2
    simp [queue_file_renamed_events, h, h2]
  · intro h2
    simp [queue_file_renamed_events, h, h2]

/-- C1 (witness): concrete instances of both branches of the amended
claim. -/
theorem queue_file_renamed_moved_or_deleted_only_witness :
    queue_file_renamed_events "/w/a.txt"
        { entries := [("/w/a.txt", { st_ino := 5 })] }
        { entries := [("/w/b.txt", { st_ino := 5 })] }
      = [FileMovedEvent "/w/a.txt" "/w/b.txt"] ∧
    queue_file_renamed_events "/w/a.txt"
        { entries := [("/w/a.txt", { st_ino := 5 })] }
        { entries := [] }
      = [FileDeletedEvent "/w/a.txt"] :=
  ⟨(queue_file_renamed_moved_or_deleted_only
      { entries := [("/w/a.txt", { st_ino := 5 })] }
      { entries := [("/w/b.txt", { st_ino := 5 })] }
      "/w/a.txt" "/w/b.txt" { st_ino := 5 } rfl).1 rfl,
   (queue_file_renamed_moved_or_deleted_only
      { entries := [("/w/a.txt", { st_ino := 5 })] }
      { entries := [] }
      "/w/a.txt" "" { st_ino := 5 } rfl).2 rfl⟩

/-! ## C10 -/

/-- C10: the flag dispatch chain classifies with fixed precedence — a set
delete flag yields Deleted whatever else is set; otherwise a set attribute
flag wins; otherwise the write/extend flags win; the renamed classification
is reached only when none of the higher-precedence flags is set. -/
theorem kevent_classification_precedence (kev : Kev) :
    (is_deleted kev = true → classify kev = KevClass.deleted) ∧
    (is_deleted kev = false → is_attrib_modified kev = true →
      classify kev = KevClass.attribModified) ∧
    (is_deleted kev = false → is_attrib_modified kev = false →
      is_modified kev = true → classify kev = KevClass.modified) ∧
    (classify kev = KevClass.renamed →
      is_renamed kev = true ∧ is_deleted kev = false ∧
      is_attrib_modified kev = false ∧ is_modified kev = false) := by
  refine ⟨fun h1 => ?_, fun h1 h2 => ?_, fun h1 h2 h3 => ?_, fun h => ?_⟩
  · simp [classify, h1]
  · simp [classify, h1, h2]
  · simp [classify, h1, h2, h3]
  · cases hd : is_deleted kev <;> cases ha : is_attrib_modified kev <;>
      cases hm : is_modified kev <;> cases hr : is_renamed kev <;>
      simp [classify, hd, ha, hm, hr] at h ⊢

/-- C10 (witness): concrete kevents carrying several flags at once land in
the predicted class. -/
theorem kevent_classification_precedence_witness :
    classify { ident := 7, fflags := 0x3f } = KevClass.deleted ∧
    classify { ident := 7, fflags := 0x3e } = KevClass.attribModified ∧
    classify { ident := 7, fflags := 0x26 } = KevClass.modified ∧
    (is_renamed { ident := 7, fflags := 0x20 } = true ∧
     is_deleted { ident := 7, fflags := 0x20 } = false ∧
     is_attrib_modified { ident := 7, fflags := 0x20 } = false ∧
     is_modified { ident := 7, fflags := 0x20 } = false) :=
  ⟨(kevent_classification_precedence { ident := 7, fflags := 0x3f }).1 (by decide),
   (kevent_classification_precedence { ident := 7, fflags := 0x3e }).2.1
     (by decide) (by decide),
   (kevent_classification_precedence { ident := 7, fflags := 0x26 }).2.2.1
     (by decide) (by decide) (by decide),
   (kevent_classification_precedence { ident := 7, fflags := 0x20 }).2.2.2
     (by decide)⟩

/-! ## C7 -/

/-- C7: `add` on an already-registered path is an idempotent no-op returning
the registry unchanged (so neither index changes and the descriptor
constructor — the only site that opens a native handle — is never invoked),
and every normally-returning `add` or `remove` call preserves the
at-most-one-descriptor-per-path invariant, so no sequence of such calls can
ever register two descriptors for one path. -/
theorem descriptor_set_add_idempotent_unique_paths
    (s : KeventDescriptorSet) (path : String) (is_directory : Bool)
    (hreg : s.has_path (absolute_path path) = true) :
    s.add false path is_directory = PyResult.ok s ∧
    (∀ q b t, s.UniquePaths → s.add false q b = PyResult.ok t → t.UniquePaths) ∧
    (∀ q t, s.UniquePaths → s.remove false q = PyResult.ok t → t.UniquePaths) := by
  refine ⟨?_, ?_, ?_⟩
  · simp [KeventDescriptorSet.add, hreg]
  · intro q b t hu ht
    by_cases hq : s.has_path (absolute_path q) = true
    · simp [KeventDescriptorSet.add, hq] at ht
      rw [← ht]; exact hu
    · simp [KeventDescriptorSet.add, hq, KeventDescriptor.construct] at ht
  · intro q t hu ht
    by_cases hq : s.has_path (absolute_path q) = true
    · simp [KeventDescriptorSet.remove, hq, KeventDescriptorSet.getitem] at ht
    · simp [KeventDescriptorSet.remove, hq] at ht
      rw [← ht]; exact hu

/-- C7 (witness): on the concrete registry tracking `/w/a.txt`, re-adding
`/w/a.txt` returns the registry unchanged, and the invariant survives a
normally-returning remove of an absent path. -/
theorem descriptor_set_add_idempotent_unique_paths_witness :
    setRegA.add false "/w/a.txt" false = PyResult.ok setRegA ∧
    setRegA.UniquePaths :=
  ⟨(descriptor_set_add_idempotent_unique_paths setRegA "/w/a.txt" false
      (by decide)).1,
   (descriptor_set_add_idempotent_unique_paths setRegA "/w/a.txt" false
      (by decide)).2.2 "/w/gone.txt" setRegA
      (by unfold KeventDescriptorSet.UniquePaths; decide) (by decide)⟩

/-! ## C8 -/

/-- C8 (code bug): `remove` on an absent path is indeed an idempotent no-op,
but `remove` on a registered path never completes: holding the registry's
non-reentrant lock it evaluates `self[path]`, whose `__getitem__` acquires
the same lock again, deadlocking instead of closing the handle and removing
the entry. -/
theorem descriptor_set_remove_deadlocks_on_registered_path :
    setRegA.remove false "/w/a.txt" = PyResult.deadlock ∧
    setRegA.remove false "/w/gone.txt" = PyResult.ok setRegA := by
  decide

/-! ## C9 -/

/-- C9: `get_for_fd` on a handle with no registered descriptor raises
KeyError (the NotFound failure), and once a descriptor has been removed
from the indices, looking up its former handle finds nothing. -/
theorem get_for_fd_unknown_handle_keyerror
    (s : KeventDescriptorSet) (fd : Nat) (h : s.fdLookup fd = none) :
    s.get_for_fd false fd = PyResult.exn PyExn.keyError ∧
    (∀ d : KeventDescriptor, (s.remove_descriptor d).fdLookup d.fd = none) := by
  constructor
  · simp [KeventDescriptorSet.get_for_fd, h]
  · intro d
    unfold KeventDescriptorSet.fdLookup KeventDescriptorSet.remove_descriptor
    have hfind : List.find? (fun p => p.1 == d.fd)
        (List.filter (fun p => p.1 != d.fd) s.descriptor_for_fd) = none := by
      rw [List.find?_eq_none]
      intro x hx
      have hmem := List.mem_filter.mp hx
      simpa using hmem.2
    simp [hfind]

/-- C9 (witness): on the concrete registry tracking only fd 3, looking up
fd 99 raises KeyError, and after removing the descriptor for `/w/a.txt` its
former handle 3 resolves to nothing. -/
theorem get_for_fd_unknown_handle_keyerror_witness :
    setRegA.get_for_fd false 99 = PyResult.exn PyExn.keyError ∧
    (setRegA.remove_descriptor descA).fdLookup descA.fd = none :=
  ⟨(get_for_fd_unknown_handle_keyerror setRegA 99 (by decide)).1,
   (get_for_fd_unknown_handle_keyerror setRegA 99 (by decide)).2 descA⟩

/-! ## C3 -/

/-- C3 (counterexample): a batch whose first signal carries the unregistered
handle 99 is not skipped silently — the descriptor lookup's KeyError
propagates and aborts the batch, so the following signal for the registered
handle 3, which would have queued a Modified event, is never processed. -/
theorem unknown_handle_aborts_batch_concrete :
    emitterRegA.queue_events_except_renames_and_dir_modifications
      [{ ident := 99, fflags := 0x8 }, { ident := 3, fflags := 0x8 }]
      = PyResult.exn PyExn.keyError := by
  decide

/-- C3 (amended): a raw signal whose handle has no registered descriptor
raises KeyError from the unguarded `get_for_fd` lookup; no event is emitted
for it, and the exception aborts processing of the remaining signals in the
batch. -/
theorem unknown_handle_raises_keyerror
    (st : KqueueEmitter) (kev : Kev) (rest : List Kev)
    (h : st.descriptors.fdLookup kev.ident = none) :
    st.queue_events_except_renames_and_dir_modifications (kev :: rest) =
      PyResult.exn PyExn.keyError := by
  simp [KqueueEmitter.queue_events_except_renames_and_dir_modifications,
        KqueueEmitter.processBatch, KqueueEmitter.processOne,
        KeventDescriptorSet.get_for_fd, h]

/-- C3 (witness): the amended claim at the concrete registry tracking only
fd 3 and a lone signal for the unknown fd 99. -/
theorem unknown_handle_raises_keyerror_witness :
    emitterRegA.queue_events_except_renames_and_dir_modifications
      [{ ident := 99, fflags := 0x8 }] = PyResult.exn PyExn.keyError :=
  unknown_handle_raises_keyerror emitterRegA { ident := 99, fflags := 0x8 } []
    (by decide)

/-! ## C4 -/

/-- C4 (counterexample): the attribute-modified signal for the registered
file `/w/a.txt` enqueues an event whose type is Modified — there is no
AttributeModified event type in the code's taxonomy — refuting the claim
that an event of type AttributeModified is enqueued. -/
theorem attrib_signal_event_type_not_attribute_modified :
    emitterRegA.processOne Deferred.empty { ident := 3, fflags := 0x8 } =
      PyResult.ok ({ emitterRegA with queue := [FileModifiedEvent "/w/a.txt"] },
        Deferred.empty) ∧
    (FileModifiedEvent "/w/a.txt").event_type ≠ EventType.attributeModified := by
  decide

/-- C4 (amended): for every raw signal classified as attribute-modified, a
canonical event of type Modified — tagged file-or-directory according to
the descriptor and carrying the descriptor's path — is enqueued
immediately, with both deferral sets left untouched. -/
theorem attrib_signal_enqueues_modified_immediately
    (st : KqueueEmitter) (acc : Deferred) (kev : Kev) (d : KeventDescriptor)
    (hfd : st.descriptors.fdLookup kev.ident = some d)
    (hcl : classify kev = KevClass.attribModified) :
    st.processOne acc kev =
      PyResult.ok ({ st with queue := st.queue ++
        [if d.is_directory then DirModifiedEvent d.path
         else FileModifiedEvent d.path] }, acc) := by
  cases hdir : d.is_directory <;>
    simp [KqueueEmitter.processOne, KeventDescriptorSet.get_for_fd, hfd, hcl,
          hdir, KqueueEmitter.queue_event, KqueueEmitter.queue_event_aux,
          DirModifiedEvent, FileModifiedEvent, PyResult.bind]

/-- C4 (witness): the amended claim at the concrete registry: an
attribute-modified signal on fd 3 immediately enqueues a file Modified
event for `/w/a.txt`. -/
theorem attrib_signal_enqueues_modified_immediately_witness :
    emitterRegA.processOne Deferred.empty { ident := 3, fflags := 0x8 } =
      PyResult.ok ({ emitterRegA with queue := [FileModifiedEvent "/w/a.txt"] },
        Deferred.empty) :=
  attrib_signal_enqueues_modified_immediately emitterRegA Deferred.empty
    { ident := 3, fflags := 0x8 } descA rfl (by decide)

/-! ## C5 -/

/-- C5 (code bug): enqueuing a Moved event whose source path is registered
deadlocks inside the descriptor registry — `queue_event` calls
`_unregister`, i.e. `KeventDescriptorSet.remove`, which re-acquires its own
non-reentrant lock via `self[path]` — so neither the re-keying nor the
append ever happens; enqueuing a Deleted event for a registered path
deadlocks the same way instead of removing the descriptor. -/
theorem queue_event_moved_or_deleted_deadlocks :
    emitterRegA.queue_event (FileMovedEvent "/w/a.txt" "/w/b.txt") =
      PyResult.deadlock ∧
    emitterRegA.queue_event (FileDeletedEvent "/w/a.txt") =
      PyResult.deadlock := by
  decide

/-! ## C6 -/

/-- C6 (code bug): registering a path can never reach the vanished-path
handling — `KeventDescriptor.__init__` reads the unbound name `kev` before
`os.open` runs, so `add` raises NameError rather than an OSError, and
`_register`, whose handler catches OSError only, propagates it: no
Created/Deleted pair is synthesized for `/w/tmp` and the emitter does not
continue. -/
theorem register_raises_nameerror_no_synthesized_pair :
    KeventDescriptor.construct "/w/tmp" false = PyResult.exn PyExn.nameError ∧
    emitterEmpty.register "/w/tmp" false = PyResult.exn PyExn.nameError := by
  decide

/-! ## C2 -/

/-- C2 (code bug): an iteration whose batch defers the rename of the
registered directory `/w/dir` produces a non-empty directories-renamed set,
yet the iteration never captures a fresh snapshot, never runs a diff and
emits no resync events: unpacking the dispatch loop's 3-tuple into two
names raises ValueError, surfaced as NameError by the handler that names
the unbound `OSerror`; the deferred-set handlers are moreover `pass` stubs
that emit nothing for any input. -/
theorem queue_events_iteration_resync_never_runs :
    emitterRegDir.queue_events_except_renames_and_dir_modifications
      [{ ident := 7, fflags := 0x20 }] =
      PyResult.ok (emitterRegDir,
        { files_renamed := [], dirs_renamed := ["/w/dir"], dirs_modified := [] }) ∧
    emitterRegDir.queue_events_iteration [{ ident := 7, fflags := 0x20 }] =
      PyResult.exn PyExn.nameError ∧
    queue_from_dirs_renamed ["/w/dir"] emitterRegDir.snapshot
      emitterRegDir.snapshot = [] ∧
    queue_from_dirs_modified ["/w/dir"] emitterRegDir.snapshot
      emitterRegDir.snapshot = [] := by
  decide
